import Mathlib

/-!
Verification of the Rivian Home Assistant integration's update coordinator
(custom_components/rivian/entity.py) against its design specification.

Two parts of the source are embedded:

* the telemetry merge engine
  (RivianDataUpdateCoordinator._build_vehicle_info_dict, lines 173-197),
  as a pure function over association lists modelling Python dicts; and
* the update-cycle orchestration
  (_update_api_data / _async_update_data, lines 81-158),
  as a state machine driven by an oracle of API-call outcomes.
-/

namespace Rivian

/-- Heterogeneous telemetry values.  The merge logic only ever inspects a
value through Python equality and through the text rendering
str(value).lower(), so numeric and text payloads suffice for the embedding
(structured payloads are never inspected field-wise by the merge). -/
inductive Val
  | num (n : Int)
  | str (s : String)
  deriving DecidableEq, Repr

/-- Python str.lower(), written over the underlying character list (the
integration's sensor tokens are plain ASCII). -/
def pyLower (s : String) : String := ⟨s.data.map Char.toLower⟩

/-- Python str(value).lower() as evaluated on line 193 of entity.py. -/
def Val.lowerStr : Val → String
  | .num n => pyLower (toString n)
  | .str s => pyLower s

/-- Modelled from the spec: the constant INVALID_SENSOR_STATES is imported
from custom_components/rivian/const.py, which is not among the provided
source files; the spec (sections 4.3 and 6) describes it as a fixed set of
case-insensitive string literals such as "unknown" and "unavailable". -/
def INVALID_SENSOR_STATES : List String := ["unavailable", "unknown"]

/-- FieldState: the per-field record kept in a vehicle's merged state.
value is the latest accepted reading; history is the set of distinct
readings (entity.py lines 177-181 attach the singleton history on arrival).
Raw metadata keys carried next to value in the Python field dicts are never
inspected by the merge logic and are not modelled. -/
structure FieldState where
  value : Val
  history : Finset Val
  deriving DecidableEq

/-- Per-vehicle merged state: a Python dict from field name to FieldState,
modelled as an association list (unique keys are the dict representation
invariant and appear as Nodup hypotheses where needed). -/
abbrev VehState := List (String × FieldState)

/-- Dictionary lookup on the association-list model of a Python dict
(first entry with the key wins). -/
def lookupD {α : Type} : List (String × α) → String → Option α
  | [], _ => none
  | (k', v) :: rest, k => if k' = k then some v else lookupD rest k

/-- Python dict assignment d[k] = v: replace the value in place when the key
exists (order preserved), otherwise append at the end. -/
def setKey {α : Type} (s : List (String × α)) (k : String) (v : α) :
    List (String × α) :=
  if (lookupD s k).isSome then
    s.map fun kv => (kv.1, if kv.1 = k then v else kv.2)
  else s ++ [(k, v)]

/-- Python a | b on dicts (entity.py line 190): the keys of a first, with
values replaced by b's where present, then the keys of b absent from a, in
order. -/
def dictUnion {α : Type} (a b : List (String × α)) : List (String × α) :=
  (a.map fun kv => (kv.1, (lookupD b kv.1).getD kv.2)) ++
  b.filter fun kv => (lookupD a kv.1).isNone

/-- Python == on dicts (entity.py line 187): extensional equality of the
key-to-value mappings. -/
def dictEqB {α : Type} [DecidableEq α] (a b : List (String × α)) : Bool :=
  (a.all fun kv => decide (lookupD b kv.1 = lookupD a kv.1)) &&
  (b.all fun kv => decide (lookupD a kv.1 = lookupD b kv.1))

/-- Candidate mapping built from a snapshot (entity.py lines 177-181): each
retained field keeps its value and gains the singleton history of that
value.  The comprehension's guard `if v` (drop empty payloads) and the
`"value" in v` test are reflected by the snapshot parameter listing exactly
the non-empty fields together with their values (spec section 4.3 step 1). -/
def mkItems (snapshot : List (String × Val)) : VehState :=
  snapshot.map fun kv => (kv.1, { value := kv.2, history := {kv.2} })

/-- Lines 192-195 of entity.py for a single field: when the candidate value,
rendered as lower-cased text, is an invalid sensor token, the previous field
replaces the candidate; afterwards the (possibly replaced) field's history
is unioned with the previous field's history. -/
def mergeField (pf f : FieldState) : FieldState :=
  let nf := if f.value.lowerStr ∈ INVALID_SENSOR_STATES then pf else f
  { nf with history := nf.history ∪ pf.history }

/-- The loop of entity.py lines 191-195: every candidate key except
gnssLocation is merged into new_data; a key missing from the previous state
raises KeyError on the unconditional prev_items[key] lookup (modelled as the
error value carrying the offending key). -/
def mergeLoop (prev : VehState) :
    List (String × FieldState) → VehState → Except String VehState
  | [], nd => .ok nd
  | (k, f) :: rest, nd =>
    if k = "gnssLocation" then mergeLoop prev rest nd
    else
      match lookupD prev k with
      | none => .error k
      | some pf => mergeLoop prev rest (setKey nd k (mergeField pf f))

/-- RivianDataUpdateCoordinator._build_vehicle_info_dict
(entity.py lines 173-197) as a pure function of the previous per-vehicle
state (self.data.get(vin, dict())) and the snapshot's non-empty valued
fields. -/
def mergeVehicleInfo (prev : VehState) (snapshot : List (String × Val)) :
    Except String VehState :=
  if prev = [] then .ok (mkItems snapshot)
  else if mkItems snapshot = [] then .ok prev
  else if dictEqB prev (mkItems snapshot) then .ok prev
  else mergeLoop prev (mkItems snapshot) (dictUnion prev (mkItems snapshot))

deriving instance DecidableEq for Except

/-!
Embedding of the update-cycle orchestration
(RivianDataUpdateCoordinator._update_api_data and _async_update_data,
entity.py lines 81-158).  API calls are driven by an oracle: each body
attempt of _update_api_data consumes one AttemptEnv describing the outcome
every call would have if reached.  The payload content of vehicle data is
not modelled (only the vehicle identifiers); the initial-data wait of lines
116-119 is abstracted by its outcome (completed or timed out), since
completion depends on concurrently arriving push data.
-/

/-- Names of the API calls made during one body attempt. -/
inductive StepName
  | csrfCreate
  | authenticate
  | userInfo
  | subscribe
  | wallboxFetch
  deriving DecidableEq, Repr

/-- Outcome of one API call: success, RivianExpiredTokenError, or some other
exception. -/
inductive CallOutcome
  | ok
  | expired
  | failed
  deriving DecidableEq, Repr

/-- The Python exceptions that flow through the coordinator.  commError is
the generic wrapper `Exception("Error communicating with API") from err`
raised by the broad handlers on lines 138-142 and 154-158, carrying its
cause; tooManyAttempts is the line 85 `Exception("too many attempts to
login - aborting")`; timeoutErr is the asyncio TimeoutError produced when
the 10 second async_timeout of line 117 expires (an Exception subclass, so
it is caught by the broad handler, not by the RivianExpiredTokenError
handler); stepFailed records which call raised a generic failure. -/
inductive PyExc
  | rivianExpired
  | timeoutErr
  | tooManyAttempts
  | stepFailed (s : StepName)
  | commError (cause : PyExc)
  deriving DecidableEq, Repr

/-- Oracle for one body attempt of _update_api_data: the outcome each call
would produce if reached this attempt, the vehicle list a successful
registry fetch returns, whether the initial-data wait would time out, and
the wallbox response (HTTP status and payload). -/
structure AttemptEnv where
  csrfCall : CallOutcome
  authCall : CallOutcome
  userInfoCall : CallOutcome
  vehicleList : List String
  subscribeCall : CallOutcome
  waitTimesOut : Bool
  wallboxCall : CallOutcome
  wallboxStatus : Nat
  wallboxData : List String
  deriving DecidableEq, Repr

/-- Mutable coordinator state (the self._ attributes read and written by
_update_api_data).  sessionTokens collapses the three-token conjunction of
lines 91-95 (app session, user session and refresh token all present);
vehicles is self._vehicles (none until _fetch_vehicles has run) reduced to
the vehicle identifiers; wallboxes is self._wallboxes. -/
structure CoordState where
  loginAttempts : Nat
  csrfToken : Bool
  sessionTokens : Bool
  vehicles : Option (List String)
  wallboxes : Option (List String)
  deriving DecidableEq, Repr

/-- Result of one body attempt: the value returned or exception raised, the
coordinator state afterwards, and whether authenticate_graphql was called
during the attempt. -/
structure AttemptOut where
  result : Except PyExc (List String)
  state : CoordState
  authCalled : Bool
  deriving DecidableEq, Repr

/-- Lines 105-119: fetch the vehicle registry once, subscribe to push
updates per vehicle, then wait for initial data.  self._vehicles is
assigned by _fetch_vehicles before the subscription loop, so it stays
populated even when a later step of this block fails.  With zero vehicles
the subscription loop has no iterations and the wait condition is vacuously
true at once, so neither can fail.  The per-vehicle subscription calls are
collapsed into one outcome (the first failure aborts the loop). -/
def vehicleSetup (st : CoordState) (env : AttemptEnv) :
    Option PyExc × CoordState :=
  if st.vehicles.isSome then (none, st)
  else
    match env.userInfoCall with
    | .expired => (some .rivianExpired, st)
    | .failed => (some (.stepFailed .userInfo), st)
    | .ok =>
      let st1 := { st with vehicles := some env.vehicleList }
      if env.vehicleList = [] then (none, st1)
      else
        match env.subscribeCall with
        | .expired => (some .rivianExpired, st1)
        | .failed => (some (.stepFailed .subscribe), st1)
        | .ok =>
          if env.waitTimesOut then (some .timeoutErr, st1) else (none, st1)

/-- Lines 123-128: fetch the registered wallboxes when the cached roster is
truthy or unset (`if self._wallboxes or self._wallboxes is None`), and
replace it wholesale when the response status is 200. -/
def wallboxRefresh (wb : Option (List String)) (env : AttemptEnv) :
    Option PyExc × Option (List String) :=
  if (match wb with | none => true | some l => decide (l ≠ [])) then
    match env.wallboxCall with
    | .expired => (some .rivianExpired, wb)
    | .failed => (some (.stepFailed .wallboxFetch), wb)
    | .ok => if env.wallboxStatus = 200 then (none, some env.wallboxData) else (none, wb)
  else (none, wb)

/-- Lines 105-130 after a (possibly skipped) successful authentication: the
vehicle block, the counter reset of line 121, the wallbox refresh and the
final return value (the vehicle identifiers; the per-vehicle info payloads
are outside the model). -/
def afterAuth (st : CoordState) (env : AttemptEnv) (authCalled : Bool) :
    AttemptOut :=
  match vehicleSetup st env with
  | (some e, st') => { result := .error e, state := st', authCalled := authCalled }
  | (none, st') =>
    let st2 := { st' with loginAttempts := 0 }
    match wallboxRefresh st2.wallboxes env with
    | (some e, wb) =>
      { result := .error e
        state := { st2 with wallboxes := wb }
        authCalled := authCalled }
    | (none, wb) =>
      { result := .ok ((st2.vehicles).getD [])
        state := { st2 with wallboxes := wb }
        authCalled := authCalled }

/-- One attempt of the body of _update_api_data (lines 83-130): the
attempt-cap check of lines 84-85, the csrf creation of lines 88-90, the
authentication of lines 91-103 (incrementing the attempt counter on line 99
before the call), then the rest of the cycle. -/
def bodyAttempt (st : CoordState) (env : AttemptEnv) : AttemptOut :=
  if 5 ≤ st.loginAttempts then
    { result := .error .tooManyAttempts, state := st, authCalled := false }
  else
    match (if st.csrfToken then CallOutcome.ok else env.csrfCall) with
    | .expired => { result := .error .rivianExpired, state := st, authCalled := false }
    | .failed =>
      { result := .error (.stepFailed .csrfCreate), state := st, authCalled := false }
    | .ok =>
      let st1 := { st with csrfToken := true }
      if st1.sessionTokens then afterAuth st1 env false
      else
        let st2 := { st1 with loginAttempts := st1.loginAttempts + 1 }
        match env.authCall with
        | .expired =>
          { result := .error .rivianExpired, state := st2, authCalled := true }
        | .failed =>
          { result := .error (.stepFailed .authenticate), state := st2, authCalled := true }
        | .ok => afterAuth { st2 with sessionTokens := true } env true

/-- _update_api_data (lines 81-142).  The RivianExpiredTokenError handler of
lines 131-137 refreshes the csrf token and recursively re-runs the whole
body; any other exception is wrapped by the broad handler of lines 138-142.
The oracle list supplies one AttemptEnv per body attempt; none means the
oracle was exhausted while the recursion was still retrying.  The result
carries the final state, the number of authenticate_graphql calls made, and
the unconsumed oracle suffix.  create_csrf_token inside the expiry handler
is modelled by its successful effect (setting the csrf token). -/
def updateApiData (st : CoordState) :
    List AttemptEnv →
      Option (Except PyExc (List String) × CoordState × Nat × List AttemptEnv)
  | [] => none
  | env :: rest =>
    match bodyAttempt st env with
    | { result := .ok d, state := st', authCalled := a } =>
      some (.ok d, st', (if a then 1 else 0), rest)
    | { result := .error .rivianExpired, state := st', authCalled := a } =>
      match updateApiData { st' with csrfToken := true } rest with
      | none => none
      | some (r, st'', m, rest') => some (r, st'', (if a then 1 else 0) + m, rest')
    | { result := .error e, state := st', authCalled := a } =>
      some (.error (.commError e), st', (if a then 1 else 0), rest)

/-- _async_update_data (lines 144-158): one call to _update_api_data with a
RivianExpiredTokenError handler (csrf refresh plus one retry, lines
148-153; unreachable because _update_api_data handles expiry internally)
and a broad handler wrapping any other exception once more (lines 154-158). -/
def asyncUpdateData (st : CoordState) (envs : List AttemptEnv) :
    Option (Except PyExc (List String) × CoordState × Nat × List AttemptEnv) :=
  match updateApiData st envs with
  | none => none
  | some (.ok d, st', n, rest) => some (.ok d, st', n, rest)
  | some (.error .rivianExpired, st', n, rest) =>
    match updateApiData { st' with csrfToken := true } rest with
    | none => none
    | some (r, st'', m, rest') => some (r, st'', n + m, rest')
  | some (.error e, st', n, rest) => some (.error (.commError e), st', n, rest)

/-- Consecutive scheduled update cycles: each cycle runs _async_update_data
on its own oracle, threading the coordinator state; the per-cycle results
(outcome, state after the cycle, authentication calls made) are collected. -/
def runCycles (st : CoordState) :
    List (List AttemptEnv) →
      Option (List (Except PyExc (List String) × CoordState × Nat) × CoordState)
  | [] => some ([], st)
  | envs :: more =>
    match asyncUpdateData st envs with
    | none => none
    | some (r, st', n, _) =>
      match runCycles st' more with
      | none => none
      | some (results, stF) => some ((r, st', n) :: results, stF)

/-- Coordinator state of a freshly configured entry with no persisted
tokens (the __init__ of lines 40-61 with an empty config entry). -/
def initialState : CoordState :=
  { loginAttempts := 0
    csrfToken := false
    sessionTokens := false
    vehicles := none
    wallboxes := none }

/-! Concrete oracle entries and coordinator states used to instantiate the
claims on concrete runs. -/

/-- Oracle entry on which every call succeeds, the account has no vehicles,
and the wallbox endpoint answers 200 with an empty roster. -/
def envAllOk : AttemptEnv :=
  { csrfCall := .ok
    authCall := .ok
    userInfoCall := .ok
    vehicleList := []
    subscribeCall := .ok
    waitTimesOut := false
    wallboxCall := .ok
    wallboxStatus := 200
    wallboxData := [] }

/-- Oracle entry on which authenticate_graphql raises
RivianExpiredTokenError. -/
def envAuthExpired : AttemptEnv := { envAllOk with authCall := .expired }

/-- Oracle entry on which authenticate_graphql raises a generic failure. -/
def envAuthFailed : AttemptEnv := { envAllOk with authCall := .failed }

/-- Oracle entry on which the vehicle registry fetch raises a generic
failure. -/
def envUserInfoFailed : AttemptEnv := { envAllOk with userInfoCall := .failed }

/-- Oracle entry for a first cycle with one vehicle whose initial-data wait
expires. -/
def envWaitTimeout : AttemptEnv :=
  { envAllOk with vehicleList := ["vin1"], waitTimesOut := true }

/-- Oracle entry on which get_registered_wallboxes raises
RivianExpiredTokenError. -/
def envWallboxExpired : AttemptEnv := { envAllOk with wallboxCall := .expired }

/-- Oracle entry on which get_registered_wallboxes raises a generic
failure. -/
def envWallboxFailed : AttemptEnv := { envAllOk with wallboxCall := .failed }

/-- Oracle entry whose wallbox response is 200 with a one-element roster. -/
def envWallboxOne : AttemptEnv := { envAllOk with wallboxData := ["wb1"] }

/-- Coordinator state after a fully successful first cycle of an account
with no vehicles, before any wallbox roster has been stored. -/
def stReady : CoordState :=
  { loginAttempts := 0
    csrfToken := true
    sessionTokens := true
    vehicles := some []
    wallboxes := none }

/-- Coordinator state after a fully successful cycle that stored an empty
wallbox roster. -/
def stDone : CoordState :=
  { loginAttempts := 0
    csrfToken := true
    sessionTokens := true
    vehicles := some []
    wallboxes := some [] }

/-- Coordinator state after n consecutive failed authentication attempts of
a fresh entry. -/
def stAuthFailed (n : Nat) : CoordState :=
  { loginAttempts := n
    csrfToken := true
    sessionTokens := false
    vehicles := none
    wallboxes := none }

/-- Fresh coordinator state whose csrf token has already been created. -/
def stCsrfOnly : CoordState := { initialState with csrfToken := true }

/-- Coordinator state left behind when the first cycle's registry fetch
fails right after a successful authentication. -/
def stRegistryFailed : CoordState :=
  { loginAttempts := 1
    csrfToken := true
    sessionTokens := true
    vehicles := none
    wallboxes := none }

/-- Coordinator state left behind when the first cycle's initial-data wait
times out for a one-vehicle account. -/
def stWaitTimedOut : CoordState :=
  { loginAttempts := 1
    csrfToken := true
    sessionTokens := true
    vehicles := some ["vin1"]
    wallboxes := none }

/-! Lemmas about the dictionary model. -/

@[simp] theorem lookupD_nil {α : Type} (k : String) :
    lookupD ([] : List (String × α)) k = none := rfl

@[simp] theorem lookupD_cons {α : Type} (k₀ : String) (v₀ : α)
    (rest : List (String × α)) (k : String) :
    lookupD ((k₀, v₀) :: rest) k = if k₀ = k then some v₀ else lookupD rest k :=
  rfl

theorem lookupD_append_some {α : Type} {a : List (String × α)} {k : String}
    {v : α} (b : List (String × α)) (h : lookupD a k = some v) :
    lookupD (a ++ b) k = some v := by
  induction a with
  | nil => simp [lookupD] at h
  | cons kv rest ih =>
    obtain ⟨k₀, v₀⟩ := kv
    by_cases hk : k₀ = k <;> simp_all [lookupD]

theorem lookupD_append_none {α : Type} {a : List (String × α)} {k : String}
    (b : List (String × α)) (h : lookupD a k = none) :
    lookupD (a ++ b) k = lookupD b k := by
  induction a with
  | nil => simp [lookupD]
  | cons kv rest ih =>
    obtain ⟨k₀, v₀⟩ := kv
    by_cases hk : k₀ = k <;> simp_all [lookupD]

theorem lookupD_mem {α : Type} {s : List (String × α)} {k : String} {v : α}
    (h : lookupD s k = some v) : (k, v) ∈ s := by
  induction s with
  | nil => simp [lookupD] at h
  | cons kv rest ih =>
    obtain ⟨k₀, v₀⟩ := kv
    by_cases hk : k₀ = k
    · subst hk
      simp [lookupD] at h
      simp [h]
    · simp [lookupD, hk] at h
      exact List.mem_cons_of_mem _ (ih h)

theorem lookupD_eq_none_of_not_mem_keys {α : Type} {s : List (String × α)}
    {k : String} (h : k ∉ s.map Prod.fst) : lookupD s k = none := by
  induction s with
  | nil => rfl
  | cons kv rest ih =>
    obtain ⟨k₀, v₀⟩ := kv
    simp only [List.map_cons, List.mem_cons, not_or] at h
    have hk : k₀ ≠ k := fun hh => h.1 hh.symm
    simp [lookupD, hk, ih h.2]

theorem lookupD_setKeyMap {α : Type} (s : List (String × α)) (k k' : String)
    (v : α) :
    lookupD (s.map fun kv => (kv.1, if kv.1 = k then v else kv.2)) k' =
      (lookupD s k').map fun v₁ => if k' = k then v else v₁ := by
  induction s with
  | nil => rfl
  | cons kv rest ih =>
    obtain ⟨k₀, v₀⟩ := kv
    by_cases hk : k₀ = k'
    · subst hk; simp [lookupD]
    · simp [lookupD, hk, ih]

theorem lookupD_setKey_self {α : Type} (s : List (String × α)) (k : String)
    (v : α) : lookupD (setKey s k v) k = some v := by
  unfold setKey
  by_cases h : (lookupD s k).isSome = true
  · rw [if_pos h, lookupD_setKeyMap]
    obtain ⟨w, hw⟩ := Option.isSome_iff_exists.mp h
    simp [hw]
  · rw [if_neg h, lookupD_append_none _ (Option.not_isSome_iff_eq_none.mp h)]
    simp [lookupD]

theorem lookupD_setKey_ne {α : Type} (s : List (String × α)) (k k' : String)
    (v : α) (h : k' ≠ k) : lookupD (setKey s k v) k' = lookupD s k' := by
  unfold setKey
  by_cases hs : (lookupD s k).isSome = true
  · rw [if_pos hs, lookupD_setKeyMap]
    cases lookupD s k' <;> simp [h]
  · rw [if_neg hs]
    cases hc : lookupD s k' with
    | some w => exact lookupD_append_some _ hc
    | none =>
      rw [lookupD_append_none _ hc]
      have hne : k ≠ k' := fun hh => h hh.symm
      simp [lookupD, hne]

theorem lookupD_dictUnion_mapL {α : Type} (a b : List (String × α))
    (k : String) :
    lookupD (a.map fun kv => (kv.1, (lookupD b kv.1).getD kv.2)) k =
      (lookupD a k).map fun v₀ => (lookupD b k).getD v₀ := by
  induction a with
  | nil => rfl
  | cons kv rest ih =>
    obtain ⟨k₀, v₀⟩ := kv
    by_cases hk : k₀ = k
    · subst hk; simp [lookupD]
    · simp [lookupD, hk, ih]

theorem lookupD_filterNotIn {α : Type} (a b : List (String × α)) (k : String) :
    lookupD (b.filter fun kv => (lookupD a kv.1).isNone) k =
      if (lookupD a k).isNone then lookupD b k else none := by
  induction b with
  | nil => simp [lookupD]
  | cons kv rest ih =>
    obtain ⟨k₀, v₀⟩ := kv
    rw [List.filter_cons]
    by_cases hk : k₀ = k
    · subst hk
      by_cases hp : (lookupD a k₀).isNone = true
      · simp [lookupD, hp]
      · simp [lookupD, hp, ih]
    · by_cases hp : (lookupD a k₀).isNone = true
      · simp [lookupD, hk, hp, ih]
      · simp [lookupD, hk, hp, ih]

theorem lookupD_dictUnion {α : Type} (a b : List (String × α)) (k : String) :
    lookupD (dictUnion a b) k =
      match lookupD b k with
      | some v => some v
      | none => lookupD a k := by
  unfold dictUnion
  cases ha : lookupD a k with
  | some v₀ =>
    have h1 : lookupD (a.map fun kv => (kv.1, (lookupD b kv.1).getD kv.2)) k =
        some ((lookupD b k).getD v₀) := by
      rw [lookupD_dictUnion_mapL, ha]; rfl
    rw [lookupD_append_some _ h1]
    cases hb : lookupD b k <;> simp
  | none =>
    have h1 : lookupD (a.map fun kv => (kv.1, (lookupD b kv.1).getD kv.2)) k =
        none := by
      rw [lookupD_dictUnion_mapL, ha]; rfl
    rw [lookupD_append_none _ h1, lookupD_filterNotIn, ha]
    cases hb : lookupD b k <;> simp

theorem dictEqB_lookup {α : Type} [DecidableEq α] {a b : List (String × α)}
    (h : dictEqB a b = true) (k : String) : lookupD a k = lookupD b k := by
  unfold dictEqB at h
  rw [Bool.and_eq_true, List.all_eq_true, List.all_eq_true] at h
  by_cases ha : (lookupD a k).isSome = true
  · obtain ⟨v, hv⟩ := Option.isSome_iff_exists.mp ha
    exact (of_decide_eq_true (h.1 _ (lookupD_mem hv))).symm
  · by_cases hb : (lookupD b k).isSome = true
    · obtain ⟨w, hw⟩ := Option.isSome_iff_exists.mp hb
      exact of_decide_eq_true (h.2 _ (lookupD_mem hw))
    · rw [Option.not_isSome_iff_eq_none.mp ha, Option.not_isSome_iff_eq_none.mp hb]

theorem dictEqB_refl {α : Type} [DecidableEq α] (a : List (String × α)) :
    dictEqB a a = true := by
  simp [dictEqB]

theorem lookupD_mkItems (snapshot : List (String × Val)) (k : String) :
    lookupD (mkItems snapshot) k =
      (lookupD snapshot k).map fun v => { value := v, history := {v} } := by
  unfold mkItems
  induction snapshot with
  | nil => rfl
  | cons kv rest ih =>
    obtain ⟨k₀, v₀⟩ := kv
    by_cases hk : k₀ = k
    · subst hk; simp [lookupD]
    · simp [lookupD, hk, ih]

theorem mkItems_eq_nil_iff (snapshot : List (String × Val)) :
    mkItems snapshot = [] ↔ snapshot = [] := by
  unfold mkItems
  exact List.map_eq_nil_iff

/-! Lemmas about the per-field merge of lines 192-195. -/

theorem mergeField_invalid {pf f : FieldState}
    (h : f.value.lowerStr ∈ INVALID_SENSOR_STATES) : mergeField pf f = pf := by
  unfold mergeField
  simp only [h, if_pos]
  cases pf with
  | mk v hist => simp [Finset.union_self]

theorem mergeField_valid {pf f : FieldState}
    (h : f.value.lowerStr ∉ INVALID_SENSOR_STATES) :
    mergeField pf f = { value := f.value, history := f.history ∪ pf.history } := by
  unfold mergeField
  simp [h]

theorem history_subset_mergeField (pf f : FieldState) :
    pf.history ⊆ (mergeField pf f).history := by
  by_cases h : f.value.lowerStr ∈ INVALID_SENSOR_STATES
  · rw [mergeField_invalid h]
  · rw [mergeField_valid h]
    exact Finset.subset_union_right

theorem mergeField_idem (pf f : FieldState) :
    mergeField (mergeField pf f) f = mergeField pf f := by
  by_cases h : f.value.lowerStr ∈ INVALID_SENSOR_STATES
  · rw [mergeField_invalid h, mergeField_invalid h]
  · rw [mergeField_valid h, mergeField_valid h]
    congr 1
    show f.history ∪ (f.history ∪ pf.history) = f.history ∪ pf.history
    rw [← Finset.union_assoc, Finset.union_self]

/-! Lemmas about the merge loop of lines 191-195. -/

theorem mergeLoop_ok_untouched {prev : VehState}
    {items : List (String × FieldState)} {nd nd' : VehState} {k : String}
    (h : mergeLoop prev items nd = .ok nd')
    (hk : k = "gnssLocation" ∨ lookupD items k = none) :
    lookupD nd' k = lookupD nd k := by
  induction items generalizing nd with
  | nil =>
    unfold mergeLoop at h
    cases h
    rfl
  | cons kf rest ih =>
    obtain ⟨k₀, f₀⟩ := kf
    unfold mergeLoop at h
    by_cases hg : k₀ = "gnssLocation"
    · rw [if_pos hg] at h
      refine ih h ?_
      rcases hk with hk | hk
      · exact Or.inl hk
      · refine Or.inr ?_
        by_cases hkk : k₀ = k
        · simp [hkk] at hk
        · simpa [hkk] using hk
    · rw [if_neg hg] at h
      have hne : k ≠ k₀ := by
        rcases hk with hk | hk
        · exact fun hh => hg (hh ▸ hk)
        · intro hh
          simp [hh.symm] at hk
      cases hp : lookupD prev k₀ with
      | none => rw [hp] at h; cases h
      | some pf =>
        rw [hp] at h
        rw [ih h ?_, lookupD_setKey_ne _ _ _ _ hne]
        rcases hk with hk | hk
        · exact Or.inl hk
        · refine Or.inr ?_
          have hne2 : ¬k₀ = k := fun hh => hne hh.symm
          simpa [hne2] using hk

theorem mergeLoop_ok_found {prev : VehState}
    {items : List (String × FieldState)} {nd nd' : VehState} {k : String}
    {f : FieldState}
    (hnd : (items.map Prod.fst).Nodup)
    (hk : k ≠ "gnssLocation")
    (hit : lookupD items k = some f)
    (h : mergeLoop prev items nd = .ok nd') :
    ∃ pf, lookupD prev k = some pf ∧ lookupD nd' k = some (mergeField pf f) := by
  induction items generalizing nd with
  | nil => simp [lookupD] at hit
  | cons kf rest ih =>
    obtain ⟨k₀, f₀⟩ := kf
    unfold mergeLoop at h
    by_cases hkk : k₀ = k
    · subst hkk
      simp only [lookupD, if_pos rfl] at hit
      cases hit
      rw [if_neg hk] at h
      cases hp : lookupD prev k₀ with
      | none => rw [hp] at h; cases h
      | some pf =>
        rw [hp] at h
        refine ⟨pf, rfl, ?_⟩
        have hrest : lookupD rest k₀ = none := by
          apply lookupD_eq_none_of_not_mem_keys
          simp only [List.map_cons] at hnd
          exact (List.nodup_cons.mp hnd).1
        rw [mergeLoop_ok_untouched h (Or.inr hrest), lookupD_setKey_self]
    · have hit' : lookupD rest k = some f := by
        simpa [lookupD, hkk] using hit
      have hnd' : (rest.map Prod.fst).Nodup := by
        simp only [List.map_cons] at hnd
        exact (List.nodup_cons.mp hnd).2
      by_cases hg : k₀ = "gnssLocation"
      · rw [if_pos hg] at h
        exact ih hnd' hit' h
      · rw [if_neg hg] at h
        cases hp : lookupD prev k₀ with
        | none => rw [hp] at h; cases h
        | some pf₀ =>
          rw [hp] at h
          exact ih hnd' hit' h

theorem mergeLoop_error_of_missing {prev : VehState}
    {items : List (String × FieldState)} {k : String} {f : FieldState}
    (nd : VehState)
    (hmem : (k, f) ∈ items) (hk : k ≠ "gnssLocation")
    (hmiss : lookupD prev k = none) :
    ∃ e, mergeLoop prev items nd = .error e := by
  induction items generalizing nd with
  | nil => simp at hmem
  | cons kf rest ih =>
    obtain ⟨k₀, f₀⟩ := kf
    unfold mergeLoop
    rcases List.mem_cons.mp hmem with hh | hh
    · cases hh
      rw [if_neg hk, hmiss]
      exact ⟨k, rfl⟩
    · by_cases hg : k₀ = "gnssLocation"
      · rw [if_pos hg]
        exact ih nd hh
      · rw [if_neg hg]
        cases hp : lookupD prev k₀ with
        | none => exact ⟨k₀, rfl⟩
        | some pf => exact ih (setKey nd k₀ (mergeField pf f₀)) hh

theorem mergeLoop_ok_of_dom {prev : VehState}
    {items : List (String × FieldState)} (nd : VehState)
    (hdom : ∀ kf ∈ items, kf.1 ≠ "gnssLocation" →
      (lookupD prev kf.1).isSome = true) :
    ∃ nd', mergeLoop prev items nd = .ok nd' := by
  induction items generalizing nd with
  | nil => exact ⟨nd, rfl⟩
  | cons kf rest ih =>
    obtain ⟨k₀, f₀⟩ := kf
    unfold mergeLoop
    by_cases hg : k₀ = "gnssLocation"
    · rw [if_pos hg]
      exact ih _ fun kf hm => hdom kf (List.mem_cons_of_mem _ hm)
    · rw [if_neg hg]
      have h1 : (lookupD prev k₀).isSome = true :=
        hdom (k₀, f₀) (List.mem_cons_self _ _) hg
      cases hp : lookupD prev k₀ with
      | none =>
        rw [hp] at h1
        simp at h1
      | some pf =>
        exact ih (setKey nd k₀ (mergeField pf f₀))
          fun kf hm => hdom kf (List.mem_cons_of_mem _ hm)

theorem lookupD_dictUnion_some {α : Type} {b : List (String × α)} {k : String}
    {v : α} (a : List (String × α)) (h : lookupD b k = some v) :
    lookupD (dictUnion a b) k = some v := by
  rw [lookupD_dictUnion, h]

theorem lookupD_dictUnion_none {α : Type} {b : List (String × α)} {k : String}
    (a : List (String × α)) (h : lookupD b k = none) :
    lookupD (dictUnion a b) k = lookupD a k := by
  rw [lookupD_dictUnion, h]

theorem mkItems_keys (snapshot : List (String × Val)) :
    (mkItems snapshot).map Prod.fst = snapshot.map Prod.fst := by
  unfold mkItems
  rw [List.map_map]
  rfl

theorem lookupD_of_mem_nodup {α : Type} {s : List (String × α)}
    {kv : String × α} (hnd : (s.map Prod.fst).Nodup) (hm : kv ∈ s) :
    lookupD s kv.1 = some kv.2 := by
  induction s with
  | nil => simp at hm
  | cons kv₀ rest ih =>
    obtain ⟨k₀, v₀⟩ := kv₀
    simp only [List.map_cons, List.nodup_cons] at hnd
    rcases List.mem_cons.mp hm with hh | hh
    · rw [hh]; simp
    · have hkne : k₀ ≠ kv.1 := by
        intro he
        exact hnd.1 (he ▸ List.mem_map.mpr ⟨kv, hh, rfl⟩)
      simp [hkne, ih hnd.2 hh]

theorem exists_lookupD_of_ne_nil {α : Type} {s : List (String × α)}
    (h : s ≠ []) : ∃ k v, lookupD s k = some v := by
  cases s with
  | nil => exact absurd rfl h
  | cons kv rest =>
    obtain ⟨k₀, v₀⟩ := kv
    exact ⟨k₀, v₀, by simp⟩

theorem mergeLoop_ok_isSome_of_prev {prev : VehState}
    {items : List (String × FieldState)} {nd' : VehState} {k : String}
    {pf : FieldState}
    (hnd : (items.map Prod.fst).Nodup)
    (h : mergeLoop prev items (dictUnion prev items) = .ok nd')
    (hprev : lookupD prev k = some pf) : (lookupD nd' k).isSome = true := by
  by_cases hg : k = "gnssLocation"
  · rw [mergeLoop_ok_untouched h (Or.inl hg), lookupD_dictUnion]
    cases lookupD items k <;> simp [hprev]
  · cases hit : lookupD items k with
    | none =>
      rw [mergeLoop_ok_untouched h (Or.inr hit), lookupD_dictUnion_none _ hit,
        hprev]
      rfl
    | some f =>
      obtain ⟨pf', hpf', hk'⟩ := mergeLoop_ok_found hnd hg hit h
      rw [hk']
      rfl

/-!
The claims about the telemetry merge engine.
-/

/-- C4: for a merge whose previous state maps a non-location field to a
valid value and whose snapshot carries an invalid sensor token for that
field, a successful merge restores the field entirely from the previous
state, so the invalid token neither becomes the value nor enters the
history. -/
theorem C4_invalid_value_restores_previous
    {prev : VehState} {snapshot : List (String × Val)} {k : String} {v : Val}
    {pf : FieldState} {T : VehState}
    (hnodup : (snapshot.map Prod.fst).Nodup)
    (hk : k ≠ "gnssLocation")
    (hsnap : lookupD snapshot k = some v)
    (hinv : v.lowerStr ∈ INVALID_SENSOR_STATES)
    (hprev : lookupD prev k = some pf)
    (hvalid : pf.value.lowerStr ∉ INVALID_SENSOR_STATES)
    (hok : mergeVehicleInfo prev snapshot = .ok T) :
    lookupD T k = some pf := by
  have hitems : lookupD (mkItems snapshot) k = some ⟨v, {v}⟩ := by
    rw [lookupD_mkItems, hsnap]; rfl
  have hprevne : prev ≠ [] := by
    intro hh; rw [hh] at hprev; simp at hprev
  have hitemsne : mkItems snapshot ≠ [] := by
    intro hh; rw [hh] at hitems; simp at hitems
  unfold mergeVehicleInfo at hok
  rw [if_neg hprevne, if_neg hitemsne] at hok
  by_cases hdq : dictEqB prev (mkItems snapshot) = true
  · exfalso
    have heq := dictEqB_lookup hdq k
    rw [hprev, hitems] at heq
    have hpf := Option.some.inj heq
    rw [hpf] at hvalid
    exact hvalid hinv
  · rw [if_neg hdq] at hok
    have hkeys : ((mkItems snapshot).map Prod.fst).Nodup := by
      rw [mkItems_keys]; exact hnodup
    obtain ⟨pf', hpf', hT⟩ := mergeLoop_ok_found hkeys hk hitems hok
    rw [hprev] at hpf'
    have hpp := Option.some.inj hpf'
    rw [hT, ← hpp, mergeField_invalid hinv]

/-- C4 witness: prior state battery 80 with history containing 80, snapshot
battery unknown; the merge succeeds and the battery field keeps value 80
and history containing 80. -/
theorem C4_witness :
    mergeVehicleInfo [(("battery"), FieldState.mk (Val.num 80) {Val.num 80})]
        [(("battery"), Val.str ("unknown"))] =
      .ok [(("battery"), FieldState.mk (Val.num 80) {Val.num 80})] ∧
    lookupD [(("battery"), FieldState.mk (Val.num 80) {Val.num 80})] ("battery") =
      some (FieldState.mk (Val.num 80) {Val.num 80}) :=
  ⟨by decide,
    @C4_invalid_value_restores_previous
      [(("battery"), FieldState.mk (Val.num 80) {Val.num 80})]
      [(("battery"), Val.str ("unknown"))]
      ("battery") (Val.str ("unknown")) (FieldState.mk (Val.num 80) {Val.num 80})
      [(("battery"), FieldState.mk (Val.num 80) {Val.num 80})]
      (by decide) (by decide) (by decide) (by decide) (by decide) (by decide)
      (by decide)⟩

/-- C5: a merge with empty previous state returns exactly the candidate
mapping built from the snapshot, each field carrying the singleton history
of its value; no invalid-token filtering applies, so any value (for example
the token unknown) is accepted as the field value. -/
theorem C5_bootstrap_accepts_snapshot (snapshot : List (String × Val)) :
    mergeVehicleInfo [] snapshot = .ok (mkItems snapshot) ∧
    ∀ k v, lookupD snapshot k = some v →
      lookupD (mkItems snapshot) k = some { value := v, history := {v} } := by
  constructor
  · unfold mergeVehicleInfo
    rw [if_pos rfl]
  · intro k v h
    rw [lookupD_mkItems, h]
    rfl

/-- C5 witness: with empty previous state a snapshot carrying the invalid
token unknown is accepted as the battery field's value. -/
theorem C5_witness :
    mergeVehicleInfo [] [(("battery"), Val.str ("unknown"))] =
      .ok (mkItems [(("battery"), Val.str ("unknown"))]) ∧
    lookupD (mkItems [(("battery"), Val.str ("unknown"))]) ("battery") =
      some { value := Val.str ("unknown"), history := {Val.str ("unknown")} } :=
  ⟨(C5_bootstrap_accepts_snapshot [(("battery"), Val.str ("unknown"))]).1,
    (C5_bootstrap_accepts_snapshot [(("battery"), Val.str ("unknown"))]).2
      ("battery") (Val.str ("unknown")) (by decide)⟩

/-- C6: on every successful merge, the history of every field other than
gnssLocation is a superset of that field's history in the previous state. -/
theorem C6_history_monotone
    {prev : VehState} {snapshot : List (String × Val)} {T : VehState}
    (hnodup : (snapshot.map Prod.fst).Nodup)
    (hok : mergeVehicleInfo prev snapshot = .ok T)
    {k : String} (hk : k ≠ "gnssLocation") {pf tf : FieldState}
    (hprev : lookupD prev k = some pf) (hT : lookupD T k = some tf) :
    pf.history ⊆ tf.history := by
  unfold mergeVehicleInfo at hok
  by_cases hpe : prev = []
  · rw [hpe] at hprev; simp at hprev
  · rw [if_neg hpe] at hok
    by_cases hie : mkItems snapshot = []
    · rw [if_pos hie] at hok
      cases hok
      rw [hprev] at hT
      rw [Option.some.inj hT]
    · rw [if_neg hie] at hok
      by_cases hdq : dictEqB prev (mkItems snapshot) = true
      · rw [if_pos hdq] at hok
        cases hok
        rw [hprev] at hT
        rw [Option.some.inj hT]
      · rw [if_neg hdq] at hok
        cases hit : lookupD (mkItems snapshot) k with
        | none =>
          rw [mergeLoop_ok_untouched hok (Or.inr hit),
            lookupD_dictUnion_none _ hit, hprev] at hT
          rw [Option.some.inj hT]
        | some f =>
          have hkeys : ((mkItems snapshot).map Prod.fst).Nodup := by
            rw [mkItems_keys]; exact hnodup
          obtain ⟨pf', hpf', hTk⟩ := mergeLoop_ok_found hkeys hk hit hok
          rw [hprev] at hpf'
          rw [hTk] at hT
          rw [← Option.some.inj hT, Option.some.inj hpf']
          exact history_subset_mergeField _ _

/-- C6 witness: merging battery 81 over battery 80 with history containing
80 yields history superset of the previous history. -/
theorem C6_witness :
    mergeVehicleInfo [(("battery"), FieldState.mk (Val.num 80) {Val.num 80})]
        [(("battery"), Val.num 81)] =
      .ok [(("battery"), FieldState.mk (Val.num 81) {Val.num 81, Val.num 80})] ∧
    ({Val.num 80} : Finset Val) ⊆ {Val.num 81, Val.num 80} :=
  ⟨by decide,
    @C6_history_monotone
      [(("battery"), FieldState.mk (Val.num 80) {Val.num 80})]
      [(("battery"), Val.num 81)]
      [(("battery"), FieldState.mk (Val.num 81) {Val.num 81, Val.num 80})]
      (by decide) (by decide)
      ("battery") (by decide) (FieldState.mk (Val.num 80) {Val.num 80})
      (FieldState.mk (Val.num 81) {Val.num 81, Val.num 80})
      (by decide) (by decide)⟩

/-- C10: for a non-empty previous state and a snapshot containing a
non-location field key absent from the previous state, the merge raises
KeyError (the unconditional prev_items[key] lookup on lines 194-195)
instead of accepting the candidate field. -/
theorem C10_missing_key_raises
    {prev : VehState} {snapshot : List (String × Val)} {k : String} {v : Val}
    (hprevne : prev ≠ [])
    (hk : k ≠ "gnssLocation")
    (hsnap : lookupD snapshot k = some v)
    (hmiss : lookupD prev k = none) :
    ∃ e, mergeVehicleInfo prev snapshot = .error e := by
  have hitems : lookupD (mkItems snapshot) k = some ⟨v, {v}⟩ := by
    rw [lookupD_mkItems, hsnap]; rfl
  have hitemsne : mkItems snapshot ≠ [] := by
    intro hh; rw [hh] at hitems; simp at hitems
  have hdq : ¬dictEqB prev (mkItems snapshot) = true := by
    intro hdq
    have heq := dictEqB_lookup hdq k
    rw [hmiss, hitems] at heq
    cases heq
  unfold mergeVehicleInfo
  rw [if_neg hprevne, if_neg hitemsne, if_neg hdq]
  exact mergeLoop_error_of_missing _ (lookupD_mem hitems) hk hmiss

/-- C10 witness: previous state has only battery, snapshot has the new key
door, and the merge raises KeyError. -/
theorem C10_witness :
    ∃ e, mergeVehicleInfo [(("battery"), FieldState.mk (Val.num 80) {Val.num 80})]
      [(("door"), Val.num 1)] = .error e :=
  @C10_missing_key_raises
    [(("battery"), FieldState.mk (Val.num 80) {Val.num 80})]
    [(("door"), Val.num 1)] ("door") (Val.num 1)
    (by decide) (by decide) (by decide) (by decide)

/-- C9: the merge is idempotent in the snapshot: a successful merge of a
snapshot into a previous state, followed by a merge of the same snapshot
into the result, succeeds and yields a state extensionally equal (Python
dict equality) to the first result. -/
theorem C9_merge_idempotent
    {prev : VehState} {snapshot : List (String × Val)} {T : VehState}
    (hnodup : (snapshot.map Prod.fst).Nodup)
    (hok : mergeVehicleInfo prev snapshot = .ok T) :
    ∃ T₂, mergeVehicleInfo T snapshot = .ok T₂ ∧
      ∀ k, lookupD T₂ k = lookupD T k := by
  unfold mergeVehicleInfo at hok
  by_cases hpe : prev = []
  · rw [if_pos hpe] at hok
    cases hok
    by_cases hie : mkItems snapshot = []
    · refine ⟨mkItems snapshot, ?_, fun k => rfl⟩
      unfold mergeVehicleInfo
      rw [if_pos hie]
    · refine ⟨mkItems snapshot, ?_, fun k => rfl⟩
      unfold mergeVehicleInfo
      rw [if_neg hie, if_neg hie, if_pos (dictEqB_refl _)]
  · rw [if_neg hpe] at hok
    by_cases hie : mkItems snapshot = []
    · rw [if_pos hie] at hok
      cases hok
      refine ⟨prev, ?_, fun k => rfl⟩
      unfold mergeVehicleInfo
      rw [if_neg hpe, if_pos hie]
    · rw [if_neg hie] at hok
      by_cases hdq : dictEqB prev (mkItems snapshot) = true
      · rw [if_pos hdq] at hok
        cases hok
        refine ⟨prev, ?_, fun k => rfl⟩
        unfold mergeVehicleInfo
        rw [if_neg hpe, if_neg hie, if_pos hdq]
      · rw [if_neg hdq] at hok
        have hkeys : ((mkItems snapshot).map Prod.fst).Nodup := by
          rw [mkItems_keys]; exact hnodup
        obtain ⟨k₀, v₀, hk₀⟩ := exists_lookupD_of_ne_nil hpe
        have hT₀ : (lookupD T k₀).isSome = true :=
          mergeLoop_ok_isSome_of_prev hkeys hok hk₀
        have hTne : T ≠ [] := by
          intro hh; rw [hh] at hT₀; simp at hT₀
        by_cases hdq2 : dictEqB T (mkItems snapshot) = true
        · have hmain : mergeVehicleInfo T snapshot = .ok T := by
            unfold mergeVehicleInfo
            rw [if_neg hTne, if_neg hie, if_pos hdq2]
          exact ⟨T, hmain, fun k => rfl⟩
        · have hdom : ∀ kf ∈ mkItems snapshot, kf.1 ≠ "gnssLocation" →
              (lookupD T kf.1).isSome = true := by
            intro kf hm hkg
            have hit : lookupD (mkItems snapshot) kf.1 = some kf.2 :=
              lookupD_of_mem_nodup hkeys hm
            obtain ⟨pf, hpf, hTk⟩ := mergeLoop_ok_found hkeys hkg hit hok
            rw [hTk]
            rfl
          obtain ⟨T₂, hT₂⟩ :=
            mergeLoop_ok_of_dom (dictUnion T (mkItems snapshot)) hdom
          have hmain : mergeVehicleInfo T snapshot = .ok T₂ := by
            unfold mergeVehicleInfo
            rw [if_neg hTne, if_neg hie, if_neg hdq2]
            exact hT₂
          refine ⟨T₂, hmain, ?_⟩
          intro k
          by_cases hg : k = "gnssLocation"
          · rw [mergeLoop_ok_untouched hT₂ (Or.inl hg), lookupD_dictUnion]
            cases hit : lookupD (mkItems snapshot) k with
            | none => rfl
            | some f =>
              rw [mergeLoop_ok_untouched hok (Or.inl hg),
                lookupD_dictUnion_some _ hit]
          · cases hit : lookupD (mkItems snapshot) k with
            | none =>
              rw [mergeLoop_ok_untouched hT₂ (Or.inr hit),
                lookupD_dictUnion_none _ hit]
            | some f =>
              obtain ⟨pf₁, hpf₁, hT₁⟩ := mergeLoop_ok_found hkeys hg hit hok
              obtain ⟨pf₂, hpf₂, hT₂k⟩ := mergeLoop_ok_found hkeys hg hit hT₂
              rw [hT₁] at hpf₂
              have hpp := Option.some.inj hpf₂
              rw [hT₂k, hT₁, ← hpp, mergeField_idem]

/-- C9 witness: merging the battery 81 snapshot into battery 80 twice gives
the same state as merging it once. -/
theorem C9_witness :
    ∃ T₂, mergeVehicleInfo [(("battery"), FieldState.mk (Val.num 81) {Val.num 81, Val.num 80})]
        [(("battery"), Val.num 81)] = .ok T₂ ∧
      ∀ k, lookupD T₂ k =
        lookupD [(("battery"), FieldState.mk (Val.num 81) {Val.num 81, Val.num 80})] k :=
  @C9_merge_idempotent
    [(("battery"), FieldState.mk (Val.num 80) {Val.num 80})]
    [(("battery"), Val.num 81)]
    [(("battery"), FieldState.mk (Val.num 81) {Val.num 81, Val.num 80})]
    (by decide) (by decide)

/-!
The claims about the update-cycle orchestration.
-/

theorem updateApiData_expired_step {st st' stR : CoordState}
    {env : AttemptEnv} {a : Bool} (rest : List AttemptEnv)
    (h : bodyAttempt st env = ⟨.error .rivianExpired, st', a⟩)
    (hR : { st' with csrfToken := true } = stR) :
    updateApiData st (env :: rest) =
      match updateApiData stR rest with
      | none => none
      | some (r, st'', m, rest') =>
        some (r, st'', (if a then 1 else 0) + m, rest') := by
  subst hR
  conv_lhs => rw [updateApiData]
  rw [h]

/-- C1 counterexample: on a cycle whose first two body attempts raise the
token-expired signal and whose third succeeds, the coordinator retries after
the second expiry as well and the cycle returns success after three
authentication calls, instead of failing with a fatal error after exactly
one retry as the claim states. -/
theorem C1_counterexample :
    asyncUpdateData initialState [envAuthExpired, envAuthExpired, envAllOk] =
      some (.ok [], stDone, 3, []) := by decide

/-- C1 amended: every token-expired signal makes _update_api_data refresh
the csrf token and recursively re-run the entire update, with no per-cycle
bound on the number of retries: any number n of consecutive expiries
followed by one clean attempt still ends in a successful cycle, and an
expiry never surfaces as the cycle error. -/
theorem C1_amended_retry_unbounded (n : Nat) :
    updateApiData stReady
        (List.replicate n envWallboxExpired ++ [envAllOk]) =
      some (.ok [], stDone, 0, []) := by
  induction n with
  | zero => decide
  | succ m ih =>
    rw [List.replicate_succ, List.cons_append,
      @updateApiData_expired_step stReady stReady stReady envWallboxExpired
        false (List.replicate m envWallboxExpired ++ [envAllOk])
        (by decide) (by decide), ih]
    rfl

/-- C2 counterexample: on a first cycle with one vehicle whose initial-data
wait expires, the cycle does not proceed with the data that arrived; the
TimeoutError is caught by the broad handlers and the cycle fails with the
doubly wrapped communication error. -/
theorem C2_counterexample :
    asyncUpdateData initialState [envWaitTimeout] =
      some (.error (.commError (.commError .timeoutErr)),
        stWaitTimedOut, 1, []) := by decide

/-- C2 amended: the initial-data wait is bounded by the 10 second deadline
of line 117, but its expiry is a fatal cycle failure: a body attempt whose
wait times out raises TimeoutError, which both broad handlers wrap, so the
cycle returns the doubly wrapped communication error (with the oracle
suffix unconsumed, hence no retry) instead of the merged state.  The second
conjunct shows the wait expiry is what raises TimeoutError on any
first-cycle attempt that reaches the wait with at least one vehicle. -/
theorem C2_amended_timeout_is_fatal :
    (∀ (st : CoordState) (env : AttemptEnv) (rest : List AttemptEnv)
      (st' : CoordState) (a : Bool),
      bodyAttempt st env = ⟨.error .timeoutErr, st', a⟩ →
      asyncUpdateData st (env :: rest) =
        some (.error (.commError (.commError .timeoutErr)), st',
          (if a then 1 else 0), rest)) ∧
    (∀ (st : CoordState) (env : AttemptEnv),
      st.loginAttempts < 5 →
      (st.csrfToken = true ∨ env.csrfCall = .ok) →
      (st.sessionTokens = true ∨ env.authCall = .ok) →
      st.vehicles = none →
      env.userInfoCall = .ok →
      env.vehicleList ≠ [] →
      env.subscribeCall = .ok →
      env.waitTimesOut = true →
      (bodyAttempt st env).result = .error .timeoutErr) := by
  constructor
  · intro st env rest st' a hb
    have h1 : updateApiData st (env :: rest) =
        some (.error (.commError .timeoutErr), st', (if a then 1 else 0),
          rest) := by
      conv_lhs => rw [updateApiData]
      rw [hb]
    unfold asyncUpdateData
    rw [h1]
  · intro st env h5 hcs hss hv hui hvl hsub hw
    have hc : (if st.csrfToken then CallOutcome.ok else env.csrfCall) = .ok := by
      rcases hcs with hc | hc
      · simp [hc]
      · cases hct : st.csrfToken <;> simp [hct, hc]
    unfold bodyAttempt
    rw [if_neg (not_le.mpr h5), hc]
    rcases hss with hs | hs
    · simp [hs, afterAuth, vehicleSetup, hv, hui, hvl, hsub, hw]
    · cases hst : st.sessionTokens <;>
        simp [hst, hs, afterAuth, vehicleSetup, hv, hui, hvl, hsub, hw]

/-- C2 amended witness: the concrete first-cycle timeout run instantiating
both parts of the amended claim. -/
theorem C2_amended_witness :
    asyncUpdateData initialState [envWaitTimeout] =
      some (.error (.commError (.commError .timeoutErr)),
        stWaitTimedOut, 1, []) ∧
    (bodyAttempt initialState envWaitTimeout).result = .error .timeoutErr :=
  ⟨C2_amended_timeout_is_fatal.1 initialState envWaitTimeout []
      stWaitTimedOut true (by decide),
    C2_amended_timeout_is_fatal.2 initialState envWaitTimeout (by decide)
      (by decide) (by decide) (by decide) (by decide) (by decide) (by decide)
      (by decide)⟩

/-- C3 counterexample: starting with no stored roster, a first cycle whose
wallbox fetch returns 200 with the empty list stores the empty roster; on
the next cycle the roster is available as a non-empty list from the
endpoint, yet the coordinator leaves the stored roster empty, because the
condition of line 123 (`self._wallboxes or self._wallboxes is None`) is
falsy for the stored empty list — so the roster is not refreshed every
subsequent cycle once requested. -/
theorem C3_counterexample :
    runCycles stReady [[envAllOk], [envWallboxOne]] =
      some ([(.ok [], stDone, 0), (.ok [], stDone, 0)], stDone) ∧
    envWallboxOne.wallboxStatus = 200 ∧
    envWallboxOne.wallboxData = ["wb1"] ∧
    stDone.wallboxes = some [] :=
  ⟨rfl, by decide, by decide, by decide⟩

/-- C3 amended: the wallbox roster is requested on a cycle exactly when the
stored roster is unset (never fetched) or non-empty; a 200 refresh replaces
the roster wholesale (an empty result replaces a prior non-empty roster),
and the stored empty roster — still distinguishable from the unset state —
disables every future refresh. -/
theorem C3_amended_empty_disables_refresh :
    (∀ env : AttemptEnv, wallboxRefresh (some []) env = (none, some [])) ∧
    (∀ (l : List String) (env : AttemptEnv), l ≠ [] → env.wallboxCall = .ok →
      env.wallboxStatus = 200 →
      wallboxRefresh (some l) env = (none, some env.wallboxData)) ∧
    (∀ env : AttemptEnv, env.wallboxCall = .ok → env.wallboxStatus = 200 →
      wallboxRefresh none env = (none, some env.wallboxData)) := by
  refine ⟨fun env => rfl, ?_, ?_⟩
  · intro l env hl hc hs
    unfold wallboxRefresh
    simp [hl, hc, hs]
  · intro env hc hs
    unfold wallboxRefresh
    simp [hc, hs]

/-- C3 amended witness: the empty stored roster is never refreshed even
when a non-empty roster is available; a non-empty stored roster is replaced
wholesale by an empty 200 response; an unset roster is fetched. -/
theorem C3_amended_witness :
    wallboxRefresh (some []) envWallboxOne = (none, some []) ∧
    wallboxRefresh (some ["wb1"]) envAllOk = (none, some []) ∧
    wallboxRefresh none envWallboxOne = (none, some ["wb1"]) :=
  ⟨C3_amended_empty_disables_refresh.1 envWallboxOne,
    C3_amended_empty_disables_refresh.2.1 ["wb1"] envAllOk (by decide)
      (by decide) (by decide),
    C3_amended_empty_disables_refresh.2.2 envWallboxOne (by decide)
      (by decide)⟩

theorem afterAuth_ok_counter {st : CoordState} {env : AttemptEnv}
    {a a' : Bool} {d : List String} {st' : CoordState}
    (h : afterAuth st env a = ⟨.ok d, st', a'⟩) : st'.loginAttempts = 0 := by
  unfold afterAuth at h
  split at h
  · simp at h
  · try dsimp only at h
    split at h
    · simp at h
    · cases h
      rfl

theorem bodyAttempt_ok_counter {st : CoordState} {env : AttemptEnv}
    {d : List String} {st' : CoordState} {a : Bool}
    (h : bodyAttempt st env = ⟨.ok d, st', a⟩) : st'.loginAttempts = 0 := by
  unfold bodyAttempt at h
  split at h
  · simp at h
  · split at h
    · simp at h
    · simp at h
    · try dsimp only at h
      split at h
      · exact afterAuth_ok_counter h
      · try dsimp only at h
        split at h
        · simp at h
        · simp at h
        · exact afterAuth_ok_counter h

theorem updateApiData_ok_counter {envs : List AttemptEnv} :
    ∀ {st : CoordState} {d : List String} {st' : CoordState} {n : Nat}
      {rest : List AttemptEnv},
      updateApiData st envs = some (.ok d, st', n, rest) →
      st'.loginAttempts = 0 := by
  induction envs with
  | nil =>
    intro st d st' n rest h
    simp [updateApiData] at h
  | cons env rest2 ih =>
    intro st d st' n rest h
    rw [updateApiData] at h
    split at h
    · rename_i d₀ st₀ a₀ heq
      simp only [Option.some.injEq, Prod.mk.injEq] at h
      rw [← h.2.1]
      exact bodyAttempt_ok_counter heq
    · split at h
      · simp at h
      · rename_i heq2
        simp only [Option.some.injEq, Prod.mk.injEq] at h
        obtain ⟨h1, h2, h3⟩ := h
        rw [h1, h2] at heq2
        exact ih heq2
    · simp at h

theorem asyncUpdateData_ok_counter {st : CoordState} {envs : List AttemptEnv}
    {d : List String} {st' : CoordState} {n : Nat} {rest : List AttemptEnv}
    (h : asyncUpdateData st envs = some (.ok d, st', n, rest)) :
    st'.loginAttempts = 0 := by
  unfold asyncUpdateData at h
  split at h
  · simp at h
  · rename_i heq
    simp only [Option.some.injEq, Prod.mk.injEq] at h
    obtain ⟨h1, h2, h3⟩ := h
    rw [h1, h2] at heq
    exact updateApiData_ok_counter heq
  · split at h
    · simp at h
    · rename_i heq2
      simp only [Option.some.injEq, Prod.mk.injEq] at h
      obtain ⟨h1, h2, h3⟩ := h
      rw [h1, h2] at heq2
      exact updateApiData_ok_counter heq2
  · simp at h

/-- C7 counterexample: six consecutive cycles of a fresh entry whose
authentication always fails.  Cycles one to five each make one
authentication call and fail with the wrapped authentication failure — in
particular the fifth attempt's cycle does not fail with the
attempts-exhausted error; the attempts-exhausted error first appears on the
sixth cycle, which makes no authentication call. -/
theorem C7_counterexample :
    runCycles initialState
        [[envAuthFailed], [envAuthFailed], [envAuthFailed], [envAuthFailed],
          [envAuthFailed], [envAuthFailed]] =
      some ([
        (.error (.commError (.commError (.stepFailed .authenticate))),
          stAuthFailed 1, 1),
        (.error (.commError (.commError (.stepFailed .authenticate))),
          stAuthFailed 2, 1),
        (.error (.commError (.commError (.stepFailed .authenticate))),
          stAuthFailed 3, 1),
        (.error (.commError (.commError (.stepFailed .authenticate))),
          stAuthFailed 4, 1),
        (.error (.commError (.commError (.stepFailed .authenticate))),
          stAuthFailed 5, 1),
        (.error (.commError (.commError .tooManyAttempts)),
          stAuthFailed 5, 0)],
        stAuthFailed 5) := rfl

/-- C7 amended: five consecutive failed authentication attempts drive the
counter to five, each of those cycles failing with the wrapped
authentication error; once the counter is at least five, every body attempt
raises the attempts-exhausted error immediately, without any
authentication call and without touching the state, so every subsequent
cycle fails with the (doubly wrapped) attempts-exhausted error until the
counter is reset; and any cycle that returns success leaves the counter at
zero. -/
theorem C7_amended_cap_and_reset :
    (∀ (st : CoordState) (env : AttemptEnv), 5 ≤ st.loginAttempts →
      bodyAttempt st env = ⟨.error .tooManyAttempts, st, false⟩) ∧
    (∀ (st : CoordState) (env : AttemptEnv) (rest : List AttemptEnv),
      5 ≤ st.loginAttempts →
      asyncUpdateData st (env :: rest) =
        some (.error (.commError (.commError .tooManyAttempts)), st, 0,
          rest)) ∧
    (∀ (st : CoordState) (envs : List AttemptEnv) (d : List String)
      (st' : CoordState) (n : Nat) (rest : List AttemptEnv),
      asyncUpdateData st envs = some (.ok d, st', n, rest) →
      st'.loginAttempts = 0) := by
  have hA : ∀ (st : CoordState) (env : AttemptEnv), 5 ≤ st.loginAttempts →
      bodyAttempt st env = ⟨.error .tooManyAttempts, st, false⟩ := by
    intro st env h
    unfold bodyAttempt
    rw [if_pos h]
  refine ⟨hA, ?_, ?_⟩
  · intro st env rest h
    have h1 : updateApiData st (env :: rest) =
        some (.error (.commError .tooManyAttempts), st,
          (if false then 1 else 0), rest) := by
      conv_lhs => rw [updateApiData]
      rw [hA st env h]
    unfold asyncUpdateData
    rw [h1]
    rfl
  · intro st envs d st' n rest h
    exact asyncUpdateData_ok_counter h

/-- C7 amended witness: with the counter at five the body raises the
attempts-exhausted error with no authentication call, the cycle surfaces it
doubly wrapped, and a fully successful cycle ends with the counter at
zero. -/
theorem C7_witness :
    bodyAttempt (stAuthFailed 5) envAllOk =
      ⟨.error .tooManyAttempts, stAuthFailed 5, false⟩ ∧
    asyncUpdateData (stAuthFailed 5) [envAllOk] =
      some (.error (.commError (.commError .tooManyAttempts)),
        stAuthFailed 5, 0, []) ∧
    stDone.loginAttempts = 0 :=
  ⟨C7_amended_cap_and_reset.1 (stAuthFailed 5) envAllOk (by decide),
    C7_amended_cap_and_reset.2.1 (stAuthFailed 5) envAllOk [] (by decide),
    C7_amended_cap_and_reset.2.2 stReady [envAllOk] [] stDone 0 []
      (by decide)⟩

theorem vehicleSetup_error_ne_wallbox {st : CoordState} {env : AttemptEnv}
    {stv : CoordState}
    (h : vehicleSetup st env = (some (.stepFailed .wallboxFetch), stv)) :
    False := by
  unfold vehicleSetup at h
  split at h
  · simp at h
  · try dsimp only at h
    split at h
    · simp at h
    · simp at h
    · split at h
      · simp at h
      · split at h
        · simp at h
        · simp at h
        · split at h <;> simp at h

theorem afterAuth_wallbox_error_counter {st : CoordState}
    {env : AttemptEnv} {a a' : Bool} {st' : CoordState}
    (h : afterAuth st env a = ⟨.error (.stepFailed .wallboxFetch), st', a'⟩) :
    st'.loginAttempts = 0 := by
  unfold afterAuth at h
  split at h
  · rename_i heq
    simp only [AttemptOut.mk.injEq, Except.error.injEq] at h
    obtain ⟨h1, h2, h3⟩ := h
    exact absurd (h1 ▸ heq) vehicleSetup_error_ne_wallbox
  · try dsimp only at h
    split at h
    · cases h
      rfl
    · simp at h

theorem bodyAttempt_wallbox_error_counter {st : CoordState}
    {env : AttemptEnv} {st' : CoordState} {a : Bool}
    (h : bodyAttempt st env = ⟨.error (.stepFailed .wallboxFetch), st', a⟩) :
    st'.loginAttempts = 0 := by
  unfold bodyAttempt at h
  split at h
  · simp at h
  · split at h
    · simp at h
    · simp at h
    · try dsimp only at h
      split at h
      · exact afterAuth_wallbox_error_counter h
      · try dsimp only at h
        split at h
        · simp at h
        · simp at h
        · exact afterAuth_wallbox_error_counter h

/-- C8 counterexample: a fresh entry authenticates successfully (the
counter goes to one) and the registry fetch then fails; the cycle fails and
the counter is left at one, not zero — the reset of line 121 has not been
reached. -/
theorem C8_counterexample :
    asyncUpdateData initialState [envUserInfoFailed] =
      some (.error (.commError (.commError (.stepFailed .userInfo))),
        stRegistryFailed, 1, []) ∧
    stRegistryFailed.loginAttempts = 1 :=
  ⟨rfl, rfl⟩

/-- C8 amended: the attempt counter is reset to zero only after the whole
vehicle block (registry fetch, subscriptions, initial-data wait) has
succeeded, on line 121 just before the wallbox refresh: a wallbox-fetch
failure leaves the counter reset to zero, but a registry-fetch failure
right after a successful authentication leaves the counter incremented. -/
theorem C8_amended_reset_before_wallbox :
    (∀ (st : CoordState) (env : AttemptEnv) (st' : CoordState) (a : Bool),
      bodyAttempt st env = ⟨.error (.stepFailed .wallboxFetch), st', a⟩ →
      st'.loginAttempts = 0) ∧
    (∀ (st : CoordState) (env : AttemptEnv),
      st.loginAttempts < 5 → st.csrfToken = true → st.sessionTokens = false →
      env.authCall = .ok → st.vehicles = none → env.userInfoCall = .failed →
      bodyAttempt st env =
        ⟨.error (.stepFailed .userInfo),
          { st with sessionTokens := true, loginAttempts := st.loginAttempts + 1 },
          true⟩) := by
  constructor
  · intro st env st' a h
    exact bodyAttempt_wallbox_error_counter h
  · intro st env h5 hcs hss hauth hv hui
    unfold bodyAttempt
    rw [if_neg (not_le.mpr h5)]
    simp [hcs, hss, hauth, afterAuth, vehicleSetup, hv, hui]

/-- C8 amended witness: a wallbox-fetch failure leaves the counter at zero,
while a registry-fetch failure after a fresh successful authentication
leaves the counter at one. -/
theorem C8_witness :
    stReady.loginAttempts = 0 ∧
    bodyAttempt stCsrfOnly envUserInfoFailed =
      ⟨.error (.stepFailed .userInfo),
        { stCsrfOnly with sessionTokens := true, loginAttempts := 1 },
        true⟩ :=
  ⟨C8_amended_reset_before_wallbox.1 stReady envWallboxFailed stReady false
      (by decide),
    C8_amended_reset_before_wallbox.2 stCsrfOnly envUserInfoFailed
      (by decide) (by decide) (by decide) (by decide) (by decide)
      (by decide)⟩

end Rivian
